import Mathlib

/-!
Verification of the vnet virtual-internet NAT engine and packet handlers
(tstest/natlab/vnet/vnet.go) and the gro receive-path checksum offload
(gro.go), via a shallow embedding: Go maps become association lists,
`netip.AddrPort` becomes an explicit structure, `time.Time` becomes `Nat`,
fallible results become `Option`, and the pluggable NAT strategy becomes a
record of functions.
-/

namespace VNet

/-- Model of `netip.Addr`: a flag for IPv6-ness (`Is6`) plus an abstract
numeric value identifying the address. -/
structure Addr where
  isV6 : Bool
  val : Nat
deriving DecidableEq, Repr

/-- Model of `netip.AddrPort`. -/
structure AddrPort where
  addr : Addr
  port : Nat
deriving DecidableEq, Repr

/-- `portMapping` from vnet.go: the LAN destination and expiry time of a
NAT-PMP created port mapping. -/
structure PortMapping where
  dst : AddrPort
  expiry : Nat
deriving DecidableEq, Repr

/-- `portmapFlowKey` from vnet.go: key of the hairpin-flow cache. -/
structure PortmapFlowKey where
  peerWAN : AddrPort
  lanAP : AddrPort
deriving DecidableEq, Repr

/-- Association-list lookup, modelling Go map indexing `m[k]`. -/
def alookup {α β : Type} [DecidableEq α] : List (α × β) → α → Option β
  | [], _ => none
  | (k, v) :: rest, key => if k = key then some v else alookup rest key

/-- Association-list insert/update, modelling Go map assignment
`m[k] = v` (and `mak.Set`). -/
def ainsert {α β : Type} [DecidableEq α] (m : List (α × β)) (k : α) (v : β) :
    List (α × β) :=
  (k, v) :: m.filter (fun e => e.1 ≠ k)

/-- Association-list erase, modelling Go `delete(m, k)`. -/
def aerase {α β : Type} [DecidableEq α] (m : List (α × β)) (k : α) :
    List (α × β) :=
  m.filter (fun e => e.1 ≠ k)

/-- The NAT-relevant mutable state of a `network` (vnet.go struct fields
`portMap`, `portMapFlow`, `portmap`, `wanIP4`). -/
structure NatState where
  portMap : List (AddrPort × PortMapping)
  portMapFlow : List (PortmapFlowKey × AddrPort)
  portmap : Bool
  wanIP4 : Addr
deriving DecidableEq, Repr

/-- The pluggable NAT strategy (`NATTable` interface in the vnet package):
outbound source selection, inbound destination selection, and the
public-port-in-use query. Selections return `none` for an invalid
(drop) result. -/
structure NATTable where
  pickOutgoingSrc : AddrPort → AddrPort → Nat → Option AddrPort
  pickIncomingDst : AddrPort → AddrPort → Nat → Option AddrPort
  isPublicPortUsed : AddrPort → Bool

/-- `network.doNATOut`: hairpin-flow cache first, then the strategy.
IPv6 sources pass through untranslated. `none` models the invalid
zero `netip.AddrPort` (drop). -/
def doNATOut (nat : NATTable) (st : NatState) (src dst : AddrPort)
    (now : Nat) : Option AddrPort :=
  if src.addr.isV6 then some src
  else
    match alookup st.portMapFlow ⟨dst, src⟩ with
    | some wanAP => some wanAP
    | none => nat.pickOutgoingSrc src dst now

/-- `network.doNATIn`: live port mapping wins and records a hairpin-flow
entry; an expired mapping is deleted and the packet dropped; otherwise
the strategy decides. Returns the new destination and updated state. -/
def doNATIn (nat : NATTable) (st : NatState) (src dst : AddrPort)
    (now : Nat) : Option AddrPort × NatState :=
  if dst.addr.isV6 then (some dst, st)
  else
    match alookup st.portMap dst with
    | some lanAP =>
      if now < lanAP.expiry then
        (some lanAP.dst,
         { st with portMapFlow := ainsert st.portMapFlow ⟨src, lanAP.dst⟩ dst })
      else
        (none, { st with portMap := aerase st.portMap dst })
    | none => (nat.pickIncomingDst src dst now, st)

/-- The retry loop inside `network.doPortMap`: try the current candidate
external port; on conflict re-randomize into `rand try % 32768 + 32768`
(Go: `rand.N(uint16(32<<10)) + 32<<10`). `fuel` starts at 20000 and
`tryIdx` feeds the random oracle. -/
def portMapTryLoop (nat : NATTable) (wan4 : Addr) (dst : AddrPort)
    (expiry : Nat) (rand : Nat → Nat) :
    Nat → Nat → Nat → List (AddrPort × PortMapping) →
    Option Nat × List (AddrPort × PortMapping)
  | 0, _, _, pm => (none, pm)
  | fuel + 1, tryIdx, want, pm =>
    if 0 < want ∧ ¬nat.isPublicPortUsed ⟨wan4, want⟩ then
      (some want, ainsert pm ⟨wan4, want⟩ ⟨dst, expiry⟩)
    else
      portMapTryLoop nat wan4 dst expiry rand fuel (tryIdx + 1)
        (rand tryIdx % 32768 + 32768) pm

/-- First entry of the port-map table whose LAN target equals `dst`
(the `for k, v := range n.portMap` search in `doPortMap`). -/
def findByDst (m : List (AddrPort × PortMapping)) (dst : AddrPort) :
    Option (AddrPort × PortMapping) :=
  m.find? (fun e => e.2.dst = dst)

/-- `network.doPortMap`: feature gate, lifetime-0 delete (matching on the
LAN owner address only), idempotent refresh of an existing mapping for
the same LAN target, else bounded allocation via `portMapTryLoop`.
Returns the granted external port (`none` = failure) and new state. -/
def doPortMap (nat : NATTable) (st : NatState) (src : Addr)
    (dstLANPort wantExtPort : Nat) (sec : Nat) (now : Nat)
    (rand : Nat → Nat) : Option Nat × NatState :=
  if st.portmap = false then (none, st)
  else
    let wanAP : AddrPort := ⟨st.wanIP4, wantExtPort⟩
    let dst : AddrPort := ⟨src, dstLANPort⟩
    if sec = 0 then
      match alookup st.portMap wanAP with
      | some lanAP =>
        if lanAP.dst.addr = src then
          (none, { st with portMap := aerase st.portMap wanAP })
        else (none, st)
      | none => (none, st)
    else
      match findByDst st.portMap dst with
      | some kv =>
        (some kv.1.port,
         { st with portMap := ainsert st.portMap kv.1 ⟨dst, now + sec⟩ })
      | none =>
        let r := portMapTryLoop nat st.wanIP4 dst (now + sec) rand
          20000 0 wantExtPort st.portMap
        (r.1, { st with portMap := r.2 })

/-- `UDPPacket` from vnet.go: source, destination and UDP payload bytes. -/
structure UDPPacket where
  src : AddrPort
  dst : AddrPort
  payload : List Nat
deriving DecidableEq, Repr

/-- `binary.BigEndian.Uint16(payload[i:i+2])`. -/
def be16at (payload : List Nat) (i : Nat) : Nat :=
  payload.getD i 0 * 256 + payload.getD (i + 1) 0

/-- `binary.BigEndian.Uint32(payload[i:i+4])`. -/
def be32at (payload : List Nat) (i : Nat) : Nat :=
  ((payload.getD i 0 * 256 + payload.getD (i + 1) 0) * 256 +
    payload.getD (i + 2) 0) * 256 + payload.getD (i + 3) 0

/-- `binary.BigEndian.AppendUint16`. -/
def be16bytes (n : Nat) : List Nat := [n / 256 % 256, n % 256]

/-- `binary.BigEndian.AppendUint32`. -/
def be32bytes (n : Nat) : List Nat :=
  [n / 16777216 % 256, n / 65536 % 256, n / 256 % 256, n % 256]

/-- `network.handleNATPMPRequest`: gated on the `portmap` flag; opcode 0
(payload `[0,0]`) answers with the WAN IPv4; a well-formed 12-byte map
request delegates to `doPortMap` and answers only on success; anything
else is logged and ignored. Returns the replies written (via
`WriteUDPPacketNoNAT`) and the updated NAT state. -/
def handleNATPMPRequest (nat : NATTable) (st : NatState) (req : UDPPacket)
    (now : Nat) (rand : Nat → Nat) : List UDPPacket × NatState :=
  if st.portmap = false then ([], st)
  else if req.payload = [0, 0] then
    (([⟨req.dst, req.src,
        [0, 128, 0, 0] ++ be32bytes now ++ be32bytes st.wanIP4.val⟩]), st)
  else if req.payload.length = 12 ∧ req.payload.getD 0 0 = 0 ∧
      req.payload.getD 1 0 = 1 then
    let internalPort := be16at req.payload 4
    let wantExtPort := be16at req.payload 6
    let lifetimeSec := be32at req.payload 8
    match doPortMap nat st req.src.addr internalPort wantExtPort lifetimeSec
        now rand with
    | (some gotPort, st') =>
      ([⟨req.dst, req.src,
         [0, 129, 0, 0] ++ be32bytes now ++ be16bytes internalPort ++
           be16bytes gotPort ++ be32bytes lifetimeSec⟩], st')
    | (none, st') => ([], st')
  else ([], st)

/-- A MAC address, 6 bytes (vnet.go `type MAC [6]byte`). -/
def MACBytes := List Nat

/-- `MAC.IsBroadcast`: all six bytes 0xff. -/
def isBroadcastMAC (m : List Nat) : Bool :=
  m = [255, 255, 255, 255, 255, 255]

/-- Result of `network.writeEth`: which registered writers received the
frame, the boolean the function reports, and whether the
source-equals-destination drop was logged. -/
structure WriteEthResult where
  delivered : List Nat
  ret : Bool
  loggedSelfDrop : Bool
deriving DecidableEq, Repr

/-- `network.writeEth`: frames shorter than 12 bytes are ignored;
broadcast frames go to every registered writer; a non-broadcast frame
whose source MAC equals its destination MAC is dropped with a log;
unicast goes to the writer registered for the destination MAC, if any.
`writers` models `n.writers` as (MAC, writer-id) pairs. -/
def writeEth (writers : List (List Nat × Nat)) (res : List Nat) :
    WriteEthResult :=
  if res.length < 12 then ⟨[], false, false⟩
  else
    let dstMAC := res.take 6
    let srcMAC := (res.drop 6).take 6
    if isBroadcastMAC dstMAC then
      ⟨writers.map (fun w => w.2), decide (0 < writers.length), false⟩
    else if srcMAC = dstMAC then ⟨[], false, true⟩
    else
      match writers.find? (fun w => w.1 = dstMAC) with
      | some w => ⟨[w.2], true, false⟩
      | none => ⟨[], false, false⟩

/-- A DNS question as seen by `createDNSResponse` (name, type, class). -/
structure DNSQuestion where
  name : String
  typ : Nat
  cls : Nat
deriving DecidableEq, Repr

/-- The part of a parsed DNS message `createDNSResponse` inspects. -/
structure DNSMessage where
  id : Nat
  opcode : Nat
  qr : Bool
  rd : Bool
  questions : List DNSQuestion
deriving DecidableEq, Repr

/-- A DNS answer record produced by `createDNSResponse`. -/
structure DNSAnswer where
  name : String
  typ : Nat
  cls : Nat
  ttl : Nat
  ip : List Nat
deriving DecidableEq, Repr

/-- The DNS reply message `createDNSResponse` serializes. -/
structure DNSResponse where
  id : Nat
  rd : Bool
  questions : List DNSQuestion
  answers : List DNSAnswer
deriving DecidableEq, Repr

/-- `layers.DNSTypeA`. -/
def dnsTypeA : Nat := 1
/-- `layers.DNSTypeAAAA`. -/
def dnsTypeAAAA : Nat := 28
/-- `layers.DNSClassIN`. -/
def dnsClassIN : Nat := 1

/-- `mem.HasSuffix(name, ".pool.ntp.org")`. -/
def isNTPPoolName (s : String) : Bool :=
  ".pool.ntp.org".toList.isSuffixOf s.toList

/-- The per-question loop of `createDNSResponse`: returns `none` as soon
as a question under `.pool.ntp.org` is seen (the whole response is
suppressed), else accumulates the answers for A/AAAA class-IN questions
found in the `vips` hostname table. -/
def dnsAnswers (vips : List (String × (List Nat × List Nat))) :
    List DNSQuestion → Option (List DNSAnswer)
  | [] => some []
  | q :: rest =>
    if isNTPPoolName q.name then none
    else
      let here : List DNSAnswer :=
        if q.cls = dnsClassIN ∧ (q.typ = dnsTypeA ∨ q.typ = dnsTypeAAAA) then
          match vips.find? (fun v => v.1 = q.name) with
          | some v =>
            [⟨q.name, q.typ, q.cls, 60,
              if q.typ = dnsTypeAAAA then v.2.2 else v.2.1⟩]
          | none => []
        else []
      match dnsAnswers vips rest with
      | none => none
      | some tailAns => some (here ++ tailAns)

/-- `Server.createDNSResponse` (DNS logic): ignore non-query messages,
then build the echoed-questions-plus-answers reply via `dnsAnswers`;
`none` models returning no reply packet at all. -/
def createDNSResponse (vips : List (String × (List Nat × List Nat)))
    (msg : DNSMessage) : Option DNSResponse :=
  if msg.opcode ≠ 0 ∨ msg.qr ∨ msg.questions.length = 0 then none
  else
    match dnsAnswers vips msg.questions with
    | none => none
    | some ans => some ⟨msg.id, msg.rd, msg.questions, ans⟩

end VNet

namespace Gro

/-- One step of the carry fold in the internet checksum, with enough fuel
(`fuel ≥ x` always suffices since each step shrinks the sum). -/
def csumFold : Nat → Nat → Nat
  | 0, x => x % 65536
  | fuel + 1, x =>
    if x < 65536 then x else csumFold fuel (x % 65536 + x / 65536)

/-- Sum of the big-endian 16-bit words of a byte sequence, odd trailing
byte padded with zero (as in `tun.Checksum`). -/
def wordSum : List Nat → Nat
  | [] => 0
  | [b] => b % 256 * 256
  | a :: b :: rest => a % 256 * 256 + b % 256 + wordSum rest

/-- `tun.Checksum(data, initial)`: one's-complement sum of the 16-bit
words of `data` starting from `initial`, carries folded in. -/
def checksum (data : List Nat) (initial : Nat) : Nat :=
  csumFold (initial + wordSum data) (initial + wordSum data)

/-- `tun.PseudoHeaderChecksum(protocol, srcAddr, dstAddr, totalLen)`. -/
def pseudoHeaderChecksum (protocol : Nat) (srcAddr dstAddr : List Nat)
    (totalLen : Nat) : Nat :=
  checksum (srcAddr ++ dstAddr ++ [0, protocol % 256] ++ be16digits totalLen) 0
where
  /-- totalLen as two big-endian bytes. -/
  be16digits (n : Nat) : List Nat := [n / 256 % 256, n % 256]

/-- `ipproto.TCP`. -/
def protoTCP : Nat := 6
/-- `ipproto.UDP`. -/
def protoUDP : Nat := 17
/-- `ipproto.ICMPv6`. -/
def protoICMPv6 : Nat := 58

/-- The fields of `packet.Parsed` that `RXChecksumOffload` reads. -/
structure ParsedPacket where
  ipVersion : Nat
  ipProto : Nat
  srcAddrBytes : List Nat
  dstAddrBytes : List Nat
  buf : List Nat
deriving DecidableEq, Repr

/-- The outcome modelling `*stack.PacketBuffer`: payload bytes, network
protocol tag and the `RXChecksumValidated` mark. -/
structure PacketBuf where
  data : List Nat
  pn : Nat
  rxChecksumValidated : Bool
deriving DecidableEq, Repr

/-- `RXChecksumOffload` from gro.go. `parse6` abstracts gVisor's
`parse.IPv6` extension-header walk, returning the transport protocol
number and the remaining (post-headers) data size for the IPv6
extension-header branch; everything else follows the source. `none`
models the `nil` (rejected packet) return. -/
def RXChecksumOffload (parse6 : List Nat → Nat × Nat) (p : ParsedPacket) :
    Option PacketBuf :=
  let buf := p.buf
  let step1 : Option (Nat × Nat × Nat) :=
    if p.ipVersion = 4 then
      if buf.length < 20 then none
      else
        let cs := buf.getD 0 0 % 16 * 4
        if cs < 20 ∨ 60 < cs ∨ buf.length < cs then none
        else if checksum (buf.take cs) 0 ≠ 65535 then none
        else some (cs, 4, p.ipProto)
    else if p.ipVersion = 6 then
      if buf.length < 40 then none
      else if p.ipProto ≠ protoICMPv6 ∧ p.ipProto ≠ protoTCP ∧
          p.ipProto ≠ protoUDP then
        let r := parse6 buf
        if r.1 = protoTCP ∨ r.1 = protoUDP then
          if buf.length < r.2 then none
          else some (buf.length - r.2, 6, r.1)
        else some (40, 6, p.ipProto)
      else some (40, 6, p.ipProto)
    else some (0, 0, p.ipProto)
  match step1 with
  | none => none
  | some (cs, pn, proto) =>
    if proto = protoTCP ∨ proto = protoUDP then
      let lenForPseudo := buf.length - cs
      let c0 := pseudoHeaderChecksum proto p.srcAddrBytes p.dstAddrBytes
        lenForPseudo
      if checksum (buf.drop cs) c0 ≠ 65535 then none
      else some ⟨buf, pn, true⟩
    else some ⟨buf, pn, true⟩

end Gro

namespace VNet

/-- A NAT strategy that never selects anything and reports every public
port free; used to instantiate theorems at concrete inputs. -/
def natNone : NATTable :=
  ⟨fun _ _ _ => none, fun _ _ _ => none, fun _ => false⟩

/-- A NAT strategy that reports every public port as already in use. -/
def natAllUsed : NATTable :=
  ⟨fun _ _ _ => none, fun _ _ _ => none, fun _ => true⟩

theorem alookup_ainsert_self {α β : Type} [DecidableEq α]
    (m : List (α × β)) (k : α) (v : β) :
    alookup (ainsert m k v) k = some v := by
  simp [ainsert, alookup]

theorem alookup_filter_ne {α β : Type} [DecidableEq α]
    (m : List (α × β)) (k k' : α) (h : k' ≠ k) :
    alookup (m.filter (fun e => e.1 ≠ k)) k' = alookup m k' := by
  induction m with
  | nil => rfl
  | cons e rest ih =>
    obtain ⟨a, b⟩ := e
    simp only [decide_not] at ih ⊢
    by_cases ha : a = k
    · simp [List.filter_cons, ha, alookup, Ne.symm h, ih]
    · simp [List.filter_cons, ha, alookup, ih]

theorem alookup_ainsert_ne {α β : Type} [DecidableEq α]
    (m : List (α × β)) (k k' : α) (v : β) (h : k' ≠ k) :
    alookup (ainsert m k v) k' = alookup m k' := by
  simp only [ainsert, alookup]
  rw [if_neg (fun h2 : k = k' => h h2.symm)]
  exact alookup_filter_ne m k k' h

theorem alookup_aerase_self {α β : Type} [DecidableEq α]
    (m : List (α × β)) (k : α) :
    alookup (aerase m k) k = none := by
  induction m with
  | nil => rfl
  | cons e rest ih =>
    obtain ⟨a, b⟩ := e
    by_cases ha : a = k
    · simpa [aerase, List.filter_cons, ha] using ih
    · simpa [aerase, List.filter_cons, ha, alookup] using ih

theorem alookup_aerase_ne {α β : Type} [DecidableEq α]
    (m : List (α × β)) (k k' : α) (h : k' ≠ k) :
    alookup (aerase m k) k' = alookup m k' :=
  alookup_filter_ne m k k' h

/-- C1. Hairpin stability: if `doNATIn` has just translated a packet from
peer `P` addressed to WAN mapping `D` onto LAN target `pm.dst` via a
live port mapping, then `doNATOut` on the resulting state, for a packet
from `pm.dst` to `P` issued before `D`'s expiry, returns exactly `D`,
whatever outbound source the active NAT strategy (here an arbitrary
`nat'`) would itself pick. -/
theorem c1_hairpin_stability (nat nat' : NATTable) (st : NatState)
    (P D : AddrPort) (now now' : Nat) (pm : PortMapping)
    (hD6 : D.addr.isV6 = false) (hL6 : pm.dst.addr.isV6 = false)
    (hlook : alookup st.portMap D = some pm)
    (hlive : now < pm.expiry) (hexp : now' < pm.expiry) :
    doNATIn nat st P D now = (some pm.dst,
      { st with portMapFlow := ainsert st.portMapFlow ⟨P, pm.dst⟩ D }) ∧
    doNATOut nat' (doNATIn nat st P D now).2 pm.dst P now' = some D := by
  have hIn : doNATIn nat st P D now = (some pm.dst,
      { st with portMapFlow := ainsert st.portMapFlow ⟨P, pm.dst⟩ D }) := by
    simp [doNATIn, hD6, hlook, hlive]
  refine ⟨hIn, ?_⟩
  rw [hIn]
  simp [doNATOut, hL6, alookup_ainsert_self]

/-- Witness for C1 at a concrete peer, mapping, LAN target and times. -/
theorem c1_hairpin_stability_witness :
    doNATIn natNone ⟨[(⟨⟨false, 1⟩, 5000⟩, ⟨⟨⟨false, 2⟩, 60736⟩, 100⟩)],
        [], true, ⟨false, 1⟩⟩ ⟨⟨false, 9⟩, 777⟩ ⟨⟨false, 1⟩, 5000⟩ 50 =
      (some ⟨⟨false, 2⟩, 60736⟩,
       ⟨[(⟨⟨false, 1⟩, 5000⟩, ⟨⟨⟨false, 2⟩, 60736⟩, 100⟩)],
        [(⟨⟨⟨false, 9⟩, 777⟩, ⟨⟨false, 2⟩, 60736⟩⟩, ⟨⟨false, 1⟩, 5000⟩)],
        true, ⟨false, 1⟩⟩) ∧
    doNATOut natNone
      (doNATIn natNone ⟨[(⟨⟨false, 1⟩, 5000⟩, ⟨⟨⟨false, 2⟩, 60736⟩, 100⟩)],
        [], true, ⟨false, 1⟩⟩ ⟨⟨false, 9⟩, 777⟩ ⟨⟨false, 1⟩, 5000⟩ 50).2
      ⟨⟨false, 2⟩, 60736⟩ ⟨⟨false, 9⟩, 777⟩ 60 = some ⟨⟨false, 1⟩, 5000⟩ :=
  c1_hairpin_stability natNone natNone
    ⟨[(⟨⟨false, 1⟩, 5000⟩, ⟨⟨⟨false, 2⟩, 60736⟩, 100⟩)], [], true, ⟨false, 1⟩⟩
    ⟨⟨false, 9⟩, 777⟩ ⟨⟨false, 1⟩, 5000⟩ 50 60 ⟨⟨⟨false, 2⟩, 60736⟩, 100⟩
    (by decide) (by decide) (by decide) (by decide) (by decide)

/-- C7. Expired-mapping atomic cleanup: `doNATIn` on a WAN destination
whose port-mapping entry has expired deletes exactly that entry,
returns the invalid address (drop), leaves the hairpin-flow cache
untouched, and never consults the NAT strategy (the result is the same
for any two strategies `nat`, `nat'`). -/
theorem c7_expired_cleanup (nat nat' : NATTable) (st : NatState)
    (P D : AddrPort) (now : Nat) (pm : PortMapping)
    (hD6 : D.addr.isV6 = false)
    (hlook : alookup st.portMap D = some pm)
    (hexp : ¬ now < pm.expiry) :
    doNATIn nat st P D now =
      (none, { st with portMap := aerase st.portMap D }) ∧
    alookup (doNATIn nat st P D now).2.portMap D = none ∧
    (∀ k, k ≠ D →
      alookup (doNATIn nat st P D now).2.portMap k = alookup st.portMap k) ∧
    (doNATIn nat st P D now).2.portMapFlow = st.portMapFlow ∧
    doNATIn nat st P D now = doNATIn nat' st P D now := by
  have hIn : doNATIn nat st P D now =
      (none, { st with portMap := aerase st.portMap D }) := by
    simp [doNATIn, hD6, hlook, hexp]
  have hIn' : doNATIn nat' st P D now =
      (none, { st with portMap := aerase st.portMap D }) := by
    simp [doNATIn, hD6, hlook, hexp]
  refine ⟨hIn, ?_, ?_, ?_, hIn.trans hIn'.symm⟩
  · rw [hIn]
    exact alookup_aerase_self st.portMap D
  · intro k hk
    rw [hIn]
    exact alookup_aerase_ne st.portMap D k hk
  · rw [hIn]

theorem doPortMap_portmap_eq (nat : NATTable) (st : NatState) (src : Addr)
    (p e sec now : Nat) (rand : Nat → Nat) :
    (doPortMap nat st src p e sec now rand).2.portmap = st.portmap ∧
    (doPortMap nat st src p e sec now rand).2.wanIP4 = st.wanIP4 ∧
    (doPortMap nat st src p e sec now rand).2.portMapFlow = st.portMapFlow := by
  by_cases h1 : st.portmap = false
  · simp [doPortMap, h1]
  · by_cases h2 : sec = 0
    · rcases halo : alookup st.portMap ⟨st.wanIP4, e⟩ with _ | v
      · simp [doPortMap, h1, h2, halo]
      · by_cases h3 : v.dst.addr = src
        · simp [doPortMap, h1, h2, halo, h3]
        · simp [doPortMap, h1, h2, halo, h3]
    · rcases hfind : findByDst st.portMap ⟨src, p⟩ with _ | kv
      · simp [doPortMap, h1, h2, hfind]
      · simp [doPortMap, h1, h2, hfind]

theorem findByDst_ainsert_head (m : List (AddrPort × PortMapping))
    (k dst : AddrPort) (e : Nat) :
    findByDst (ainsert m k ⟨dst, e⟩) dst = some (k, ⟨dst, e⟩) := by
  simp [findByDst, ainsert, List.find?]

theorem portMapTryLoop_some (nat : NATTable) (wan4 : Addr) (dst : AddrPort)
    (expiry : Nat) (rand : Nat → Nat) :
    ∀ fuel tryIdx want pm g pm',
      portMapTryLoop nat wan4 dst expiry rand fuel tryIdx want pm =
        (some g, pm') →
      pm' = ainsert pm ⟨wan4, g⟩ ⟨dst, expiry⟩ ∧
      (g = want ∨ (32768 ≤ g ∧ g < 65536)) := by
  intro fuel
  induction fuel with
  | zero =>
    intro tryIdx want pm g pm' h
    exact absurd h (by simp [portMapTryLoop])
  | succ f ih =>
    intro tryIdx want pm g pm' h
    rw [portMapTryLoop] at h
    split at h
    · rw [Prod.mk.injEq] at h
      obtain ⟨h1, h2⟩ := h
      have hw : want = g := Option.some.inj h1
      constructor
      · rw [← h2, hw]
      · exact Or.inl hw.symm
    · have hr := ih (tryIdx + 1) (rand tryIdx % 32768 + 32768) pm g pm' h
      refine ⟨hr.1, Or.inr ?_⟩
      rcases hr.2 with h3 | h3
      · rw [h3]
        omega
      · exact h3

theorem portMapTryLoop_allUsed (nat : NATTable) (wan4 : Addr)
    (dst : AddrPort) (expiry : Nat) (rand : Nat → Nat)
    (hused : ∀ ap, nat.isPublicPortUsed ap = true) :
    ∀ fuel tryIdx want pm,
      portMapTryLoop nat wan4 dst expiry rand fuel tryIdx want pm =
        (none, pm) := by
  intro fuel
  induction fuel with
  | zero => intro tryIdx want pm; rfl
  | succ f ih =>
    intro tryIdx want pm
    unfold portMapTryLoop
    rw [if_neg (by simp [hused])]
    exact ih (tryIdx + 1) (rand tryIdx % 32768 + 32768) pm

theorem doPortMap_success_findByDst (nat : NATTable) (st : NatState)
    (src : Addr) (p want sec now : Nat) (rand : Nat → Nat) (g : Nat)
    (st' : NatState) (hsec : sec ≠ 0)
    (h : doPortMap nat st src p want sec now rand = (some g, st')) :
    ∃ k : AddrPort, k.port = g ∧
      findByDst st'.portMap ⟨src, p⟩ = some (k, ⟨⟨src, p⟩, now + sec⟩) := by
  by_cases hpm : st.portmap = false
  · rw [doPortMap, if_pos hpm] at h
    exact absurd (congrArg Prod.fst h) (by simp)
  · rcases hfind : findByDst st.portMap ⟨src, p⟩ with _ | kv
    · have hshape : doPortMap nat st src p want sec now rand =
          ((portMapTryLoop nat st.wanIP4 ⟨src, p⟩ (now + sec) rand
              20000 0 want st.portMap).1,
           { st with portMap := (portMapTryLoop nat st.wanIP4 ⟨src, p⟩
              (now + sec) rand 20000 0 want st.portMap).2 }) := by
        simp [doPortMap, hpm, hsec, hfind]
      rw [hshape] at h
      rcases hloop : portMapTryLoop nat st.wanIP4 ⟨src, p⟩ (now + sec) rand
          20000 0 want st.portMap with ⟨r1, r2⟩
      rw [hloop] at h
      dsimp only at h
      cases r1 with
      | none => exact absurd (congrArg Prod.fst h) (by simp)
      | some gg =>
        rw [Prod.mk.injEq] at h
        obtain ⟨h1, h2⟩ := h
        have hgg : gg = g := Option.some.inj h1
        have hins := (portMapTryLoop_some nat st.wanIP4 ⟨src, p⟩ (now + sec)
          rand 20000 0 want st.portMap gg r2 hloop).1
        refine ⟨⟨st.wanIP4, g⟩, rfl, ?_⟩
        rw [← h2]
        show findByDst r2 ⟨src, p⟩ = _
        rw [hins, hgg]
        exact findByDst_ainsert_head st.portMap ⟨st.wanIP4, g⟩ ⟨src, p⟩
          (now + sec)
    · have hshape : doPortMap nat st src p want sec now rand =
          (some kv.1.port,
           { st with
              portMap := ainsert st.portMap kv.1 ⟨⟨src, p⟩, now + sec⟩ }) := by
        simp [doPortMap, hpm, hsec, hfind]
      rw [hshape] at h
      rw [Prod.mk.injEq] at h
      obtain ⟨h1, h2⟩ := h
      refine ⟨kv.1, Option.some.inj h1, ?_⟩
      rw [← h2]
      exact findByDst_ainsert_head st.portMap kv.1 ⟨src, p⟩ (now + sec)

/-- C2. Port-map idempotent refresh: with port mapping enabled, a second
`doPortMap` call with lifetime 7200 for the same LAN target, issued
before the first mapping's expiry, returns the same external port as the
first call (no new allocation), and afterwards the entry's expiry is the
second call's time plus 7200. -/
theorem c2_portmap_idempotent_refresh (nat : NATTable) (st st1 : NatState)
    (L : Addr) (p want : Nat) (rand1 rand2 : Nat → Nat) (t1 t2 E1 : Nat)
    (hpm : st.portmap = true)
    (h1 : doPortMap nat st L p want 7200 t1 rand1 = (some E1, st1))
    (h2 : t2 < t1 + 7200) :
    (doPortMap nat st1 L p want 7200 t2 rand2).1 = some E1 ∧
    ∃ k : AddrPort, k.port = E1 ∧
      findByDst (doPortMap nat st1 L p want 7200 t2 rand2).2.portMap
        ⟨L, p⟩ = some (k, ⟨⟨L, p⟩, t2 + 7200⟩) := by
  obtain ⟨k, hk, hfind⟩ := doPortMap_success_findByDst nat st L p want 7200
    t1 rand1 E1 st1 (by omega) h1
  have hpm1 : st1.portmap = true := by
    have := (doPortMap_portmap_eq nat st L p want 7200 t1 rand1).1
    rw [h1] at this
    rw [this, hpm]
  have hres : doPortMap nat st1 L p want 7200 t2 rand2 =
      (some k.port,
       { st1 with portMap := ainsert st1.portMap k ⟨⟨L, p⟩, t2 + 7200⟩ }) := by
    simp [doPortMap, hpm1, hfind]
  rw [hres, hk]
  refine ⟨rfl, k, hk, ?_⟩
  exact findByDst_ainsert_head st1.portMap k ⟨L, p⟩ (t2 + 7200)

/-- Witness for C2: a concrete first allocation (external port 100) that
a second call refreshes. -/
theorem c2_portmap_idempotent_refresh_witness :
    (doPortMap natNone
      ⟨[(⟨⟨false, 1⟩, 100⟩, ⟨⟨⟨false, 2⟩, 60736⟩, 7200⟩)], [], true,
        ⟨false, 1⟩⟩
      ⟨false, 2⟩ 60736 100 7200 100 (fun _ => 0)).1 = some 100 ∧
    ∃ k : AddrPort, k.port = 100 ∧
      findByDst (doPortMap natNone
        ⟨[(⟨⟨false, 1⟩, 100⟩, ⟨⟨⟨false, 2⟩, 60736⟩, 7200⟩)], [], true,
          ⟨false, 1⟩⟩
        ⟨false, 2⟩ 60736 100 7200 100 (fun _ => 0)).2.portMap
        ⟨⟨false, 2⟩, 60736⟩ =
        some (k, ⟨⟨⟨false, 2⟩, 60736⟩, 100 + 7200⟩) :=
  c2_portmap_idempotent_refresh natNone ⟨[], [], true, ⟨false, 1⟩⟩
    ⟨[(⟨⟨false, 1⟩, 100⟩, ⟨⟨⟨false, 2⟩, 60736⟩, 7200⟩)], [], true, ⟨false, 1⟩⟩
    ⟨false, 2⟩ 60736 100 (fun _ => 0) (fun _ => 0) 0 100 100
    (by decide) (by decide) (by decide)

/-- C3 (as written) is false: the lifetime-0 delete compares only the LAN
owner address, not the internal port. Here the existing mapping for
external port 5 has internal port 99, the request names internal port
42, and the mapping is deleted anyway. -/
theorem c3_portmap_delete_counterexample :
    (doPortMap natNone
      ⟨[(⟨⟨false, 1⟩, 5⟩, ⟨⟨⟨false, 2⟩, 99⟩, 1000⟩)], [], true, ⟨false, 1⟩⟩
      ⟨false, 2⟩ 42 5 0 0 (fun _ => 0)).2.portMap = [] ∧ (42 : Nat) ≠ 99 := by
  decide

/-- C3 amended: with port mapping enabled, a lifetime-0 `doPortMap`
request always returns failure, never touches the hairpin cache, and
deletes the mapping registered for the requested external port exactly
when that mapping's LAN owner address equals the requester — regardless
of the internal port — leaving the table unchanged in every other
case. -/
theorem c3_portmap_delete_amended (nat : NATTable) (st : NatState)
    (L : Addr) (p E t : Nat) (rand : Nat → Nat)
    (hpm : st.portmap = true) :
    (doPortMap nat st L p E 0 t rand).1 = none ∧
    (doPortMap nat st L p E 0 t rand).2.portMapFlow = st.portMapFlow ∧
    (∀ v, alookup st.portMap ⟨st.wanIP4, E⟩ = some v →
      (v.dst.addr = L →
        (doPortMap nat st L p E 0 t rand).2.portMap =
          aerase st.portMap ⟨st.wanIP4, E⟩) ∧
      (v.dst.addr ≠ L →
        (doPortMap nat st L p E 0 t rand).2.portMap = st.portMap)) ∧
    (alookup st.portMap ⟨st.wanIP4, E⟩ = none →
      (doPortMap nat st L p E 0 t rand).2.portMap = st.portMap) := by
  rcases halo : alookup st.portMap ⟨st.wanIP4, E⟩ with _ | v
  · simp [doPortMap, hpm, halo]
  · by_cases hv : v.dst.addr = L
    · simp [doPortMap, hpm, halo, hv]
    · simp [doPortMap, hpm, halo, hv]

/-- Witness for C3's amended statement at a concrete matching delete. -/
theorem c3_portmap_delete_amended_witness :
    (doPortMap natNone
      ⟨[(⟨⟨false, 1⟩, 5⟩, ⟨⟨⟨false, 2⟩, 99⟩, 1000⟩)], [], true, ⟨false, 1⟩⟩
      ⟨false, 2⟩ 42 5 0 0 (fun _ => 0)).1 = none ∧
    (doPortMap natNone
      ⟨[(⟨⟨false, 1⟩, 5⟩, ⟨⟨⟨false, 2⟩, 99⟩, 1000⟩)], [], true, ⟨false, 1⟩⟩
      ⟨false, 2⟩ 42 5 0 0 (fun _ => 0)).2.portMapFlow = [] ∧
    (∀ v, alookup
        ([(⟨⟨false, 1⟩, 5⟩, ⟨⟨⟨false, 2⟩, 99⟩, 1000⟩)] :
          List (AddrPort × PortMapping))
        ⟨⟨false, 1⟩, 5⟩ = some v →
      (v.dst.addr = ⟨false, 2⟩ →
        (doPortMap natNone
          ⟨[(⟨⟨false, 1⟩, 5⟩, ⟨⟨⟨false, 2⟩, 99⟩, 1000⟩)], [], true,
            ⟨false, 1⟩⟩
          ⟨false, 2⟩ 42 5 0 0 (fun _ => 0)).2.portMap =
          aerase [(⟨⟨false, 1⟩, 5⟩, ⟨⟨⟨false, 2⟩, 99⟩, 1000⟩)]
            ⟨⟨false, 1⟩, 5⟩) ∧
      (v.dst.addr ≠ ⟨false, 2⟩ →
        (doPortMap natNone
          ⟨[(⟨⟨false, 1⟩, 5⟩, ⟨⟨⟨false, 2⟩, 99⟩, 1000⟩)], [], true,
            ⟨false, 1⟩⟩
          ⟨false, 2⟩ 42 5 0 0 (fun _ => 0)).2.portMap =
          [(⟨⟨false, 1⟩, 5⟩, ⟨⟨⟨false, 2⟩, 99⟩, 1000⟩)])) ∧
    (alookup ([(⟨⟨false, 1⟩, 5⟩, ⟨⟨⟨false, 2⟩, 99⟩, 1000⟩)] :
          List (AddrPort × PortMapping))
        ⟨⟨false, 1⟩, 5⟩ = none →
      (doPortMap natNone
        ⟨[(⟨⟨false, 1⟩, 5⟩, ⟨⟨⟨false, 2⟩, 99⟩, 1000⟩)], [], true, ⟨false, 1⟩⟩
        ⟨false, 2⟩ 42 5 0 0 (fun _ => 0)).2.portMap =
        [(⟨⟨false, 1⟩, 5⟩, ⟨⟨⟨false, 2⟩, 99⟩, 1000⟩)]) :=
  c3_portmap_delete_amended natNone
    ⟨[(⟨⟨false, 1⟩, 5⟩, ⟨⟨⟨false, 2⟩, 99⟩, 1000⟩)], [], true, ⟨false, 1⟩⟩
    ⟨false, 2⟩ 42 5 0 (fun _ => 0) (by decide)

/-- C4 (as written) is false: with requested external port 0 and the
first random draw 0, the allocated port is 32768, below the claimed
49152 lower bound. -/
theorem c4_ephemeral_range_counterexample :
    (doPortMap natNone ⟨[], [], true, ⟨false, 1⟩⟩ ⟨false, 2⟩ 60736 0 7200 10
      (fun _ => 0)).1 = some 32768 ∧ ¬ (49152 : Nat) ≤ 32768 := by
  decide

/-- C4 amended: with port mapping enabled, a positive lifetime and no
existing mapping for the LAN target, every external port `doPortMap`
returns that differs from the requested port lies in 32768–65535
(Go: `rand.N(uint16(32<<10)) + 32<<10`), and if the strategy reports
every public port in use the bounded retry budget is exhausted and the
call fails. -/
theorem c4_ephemeral_range_amended (nat : NATTable) (st : NatState)
    (L : Addr) (p want sec now : Nat) (rand : Nat → Nat)
    (hpm : st.portmap = true) (hsec : sec ≠ 0)
    (hfresh : findByDst st.portMap ⟨L, p⟩ = none) :
    (∀ g st', doPortMap nat st L p want sec now rand = (some g, st') →
      g ≠ want → 32768 ≤ g ∧ g < 65536) ∧
    ((∀ ap, nat.isPublicPortUsed ap = true) →
      (doPortMap nat st L p want sec now rand).1 = none) := by
  have hshape : doPortMap nat st L p want sec now rand =
      ((portMapTryLoop nat st.wanIP4 ⟨L, p⟩ (now + sec) rand
          20000 0 want st.portMap).1,
       { st with portMap := (portMapTryLoop nat st.wanIP4 ⟨L, p⟩ (now + sec)
          rand 20000 0 want st.portMap).2 }) := by
    simp [doPortMap, hpm, hsec, hfresh]
  constructor
  · intro g st' h hne
    rw [hshape] at h
    rcases hloop : portMapTryLoop nat st.wanIP4 ⟨L, p⟩ (now + sec) rand
        20000 0 want st.portMap with ⟨r1, r2⟩
    rw [hloop] at h
    cases r1 with
    | none => exact absurd (congrArg Prod.fst h) (by simp)
    | some gg =>
      have hgg : gg = g := Option.some.inj (congrArg Prod.fst h)
      rcases (portMapTryLoop_some nat st.wanIP4 ⟨L, p⟩ (now + sec) rand
        20000 0 want st.portMap gg r2 hloop).2 with h3 | h3
      · exact absurd (hgg.symm.trans h3) hne
      · rw [← hgg]
        exact h3
  · intro hused
    rw [hshape]
    rw [portMapTryLoop_allUsed nat st.wanIP4 ⟨L, p⟩ (now + sec) rand hused
      20000 0 want st.portMap]

/-- Witness for C4's amended statement at a concrete fresh request. -/
theorem c4_ephemeral_range_amended_witness :
    (∀ g st', doPortMap natAllUsed ⟨[], [], true, ⟨false, 1⟩⟩ ⟨false, 2⟩
        60736 0 7200 10 (fun _ => 0) = (some g, st') →
      g ≠ 0 → 32768 ≤ g ∧ g < 65536) ∧
    ((∀ ap, natAllUsed.isPublicPortUsed ap = true) →
      (doPortMap natAllUsed ⟨[], [], true, ⟨false, 1⟩⟩ ⟨false, 2⟩
        60736 0 7200 10 (fun _ => 0)).1 = none) :=
  c4_ephemeral_range_amended natAllUsed ⟨[], [], true, ⟨false, 1⟩⟩
    ⟨false, 2⟩ 60736 0 7200 10 (fun _ => 0)
    (by decide) (by decide) (by decide)

/-- Witness for C7 at a concrete expired entry. -/
theorem c7_expired_cleanup_witness :
    doNATIn natNone ⟨[(⟨⟨false, 1⟩, 5000⟩, ⟨⟨⟨false, 2⟩, 60736⟩, 100⟩)],
        [], true, ⟨false, 1⟩⟩ ⟨⟨false, 9⟩, 777⟩ ⟨⟨false, 1⟩, 5000⟩ 100 =
      (none, ⟨[], [], true, ⟨false, 1⟩⟩) :=
  (c7_expired_cleanup natNone natAllUsed
    ⟨[(⟨⟨false, 1⟩, 5000⟩, ⟨⟨⟨false, 2⟩, 60736⟩, 100⟩)], [], true, ⟨false, 1⟩⟩
    ⟨⟨false, 9⟩, 777⟩ ⟨⟨false, 1⟩, 5000⟩ 100 ⟨⟨⟨false, 2⟩, 60736⟩, 100⟩
    (by decide) (by decide) (by decide)).1

/-- Any question list containing a `.pool.ntp.org` name makes the
`createDNSResponse` question loop abort with no answers at all. -/
theorem dnsAnswers_ntp_none (vips : List (String × (List Nat × List Nat)))
    (q : DNSQuestion) (hntp : isNTPPoolName q.name = true) :
    ∀ qs : List DNSQuestion, q ∈ qs → dnsAnswers vips qs = none := by
  intro qs hmem
  induction qs with
  | nil => cases hmem
  | cons a rest ih =>
    rcases List.mem_cons.mp hmem with h | h
    · subst h
      simp [dnsAnswers, hntp]
    · rw [dnsAnswers]
      split
      · rfl
      · rw [ih h]

/-- C5. DNS NTP suppression: if any question of a DNS message names a
host under `.pool.ntp.org`, `createDNSResponse` produces no reply at
all, even if other questions in the message are answerable from the
`vips` hostname table. -/
theorem c5_dns_ntp_suppression (vips : List (String × (List Nat × List Nat)))
    (msg : DNSMessage) (q : DNSQuestion)
    (hq : q ∈ msg.questions) (hntp : isNTPPoolName q.name = true) :
    createDNSResponse vips msg = none := by
  rw [createDNSResponse]
  split
  · rfl
  · rw [dnsAnswers_ntp_none vips q hntp msg.questions hq]

/-- Witness for C5: a two-question query whose first question is
answerable and whose second names an NTP-pool host yields no reply. -/
theorem c5_dns_ntp_suppression_witness :
    createDNSResponse [("ctrl.example", ([1, 2, 3, 4], [0, 1]))]
      ⟨7, 0, false, true,
        [⟨"ctrl.example", 1, 1⟩, ⟨"2.debian.pool.ntp.org", 1, 1⟩]⟩ = none :=
  c5_dns_ntp_suppression [("ctrl.example", ([1, 2, 3, 4], [0, 1]))]
    ⟨7, 0, false, true,
      [⟨"ctrl.example", 1, 1⟩, ⟨"2.debian.pool.ntp.org", 1, 1⟩]⟩
    ⟨"2.debian.pool.ntp.org", 1, 1⟩ (by decide) (by decide)

/-- C6 (as written) is false: `writeEth` checks the broadcast destination
before the source-equals-destination drop, so a frame whose source and
destination are both the broadcast MAC is delivered to every registered
writer rather than dropped. -/
theorem c6_broadcast_selfdrop_counterexample :
    (writeEth [([1, 2, 3, 4, 5, 6], 7)]
      ([255, 255, 255, 255, 255, 255] ++ [255, 255, 255, 255, 255, 255] ++
        [0])).delivered = [7] ∧
    (writeEth [([1, 2, 3, 4, 5, 6], 7)]
      ([255, 255, 255, 255, 255, 255] ++ [255, 255, 255, 255, 255, 255] ++
        [0])).loggedSelfDrop = false := by
  decide

/-- C6 amended: a frame whose source MAC equals its destination MAC is
delivered to no registered writer and logged as dropped only when that
MAC is not the broadcast address; a broadcast-destined frame is
delivered to every registered writer regardless of its source MAC. -/
theorem c6_selfdrop_amended (writers : List (List Nat × Nat))
    (res : List Nat) (hlen : 12 ≤ res.length)
    (heq : (res.drop 6).take 6 = res.take 6) :
    (isBroadcastMAC (res.take 6) = false →
      writeEth writers res = ⟨[], false, true⟩) ∧
    (isBroadcastMAC (res.take 6) = true →
      (writeEth writers res).delivered = writers.map (fun w => w.2)) := by
  constructor
  · intro hb
    rw [writeEth, if_neg (by omega)]
    simp [hb, heq]
  · intro hb
    rw [writeEth, if_neg (by omega)]
    simp [hb]

/-- Witness for C6's amended statement: a non-broadcast self-addressed
frame is dropped and logged even with a writer registered for it. -/
theorem c6_selfdrop_amended_witness :
    (isBroadcastMAC (([9, 9, 9, 9, 9, 9] ++ [9, 9, 9, 9, 9, 9] ++
        [0]).take 6) = false →
      writeEth [([9, 9, 9, 9, 9, 9], 7)]
        ([9, 9, 9, 9, 9, 9] ++ [9, 9, 9, 9, 9, 9] ++ [0]) =
        ⟨[], false, true⟩) ∧
    (isBroadcastMAC (([9, 9, 9, 9, 9, 9] ++ [9, 9, 9, 9, 9, 9] ++
        [0]).take 6) = true →
      (writeEth [([9, 9, 9, 9, 9, 9], 7)]
        ([9, 9, 9, 9, 9, 9] ++ [9, 9, 9, 9, 9, 9] ++ [0])).delivered =
        [([9, 9, 9, 9, 9, 9], 7)].map (fun w => w.2)) :=
  c6_selfdrop_amended [([9, 9, 9, 9, 9, 9], 7)]
    ([9, 9, 9, 9, 9, 9] ++ [9, 9, 9, 9, 9, 9] ++ [0])
    (by decide) (by decide)

/-- C8. Port-mapping feature gate: with the network's `portmap` flag
disabled, `doPortMap` fails for every input and leaves the state (both
tables) untouched, and `handleNATPMPRequest` produces no reply packet
and no state change for any request, well-formed or not. -/
theorem c8_portmap_feature_gate (nat : NATTable) (st : NatState)
    (hpm : st.portmap = false) (src : Addr) (p e sec now : Nat)
    (rand : Nat → Nat) (req : UDPPacket) :
    doPortMap nat st src p e sec now rand = (none, st) ∧
    handleNATPMPRequest nat st req now rand = ([], st) := by
  constructor
  · rw [doPortMap, if_pos hpm]
  · rw [handleNATPMPRequest, if_pos hpm]

/-- `handleNATPMPRequest` never touches the hairpin-flow cache: every
branch leaves `portMapFlow` exactly as it was. -/
theorem handleNATPMP_flow_eq (nat : NATTable) (st : NatState)
    (req : UDPPacket) (now : Nat) (rand : Nat → Nat) :
    (handleNATPMPRequest nat st req now rand).2.portMapFlow =
      st.portMapFlow := by
  by_cases h1 : st.portmap = false
  · rw [handleNATPMPRequest, if_pos h1]
  · rw [handleNATPMPRequest, if_neg h1]
    by_cases h2 : req.payload = [0, 0]
    · rw [if_pos h2]
    · rw [if_neg h2]
      by_cases h3 : req.payload.length = 12 ∧ req.payload.getD 0 0 = 0 ∧
          req.payload.getD 1 0 = 1
      · rw [if_pos h3]
        have hflow := (doPortMap_portmap_eq nat st req.src.addr
          (be16at req.payload 4) (be16at req.payload 6)
          (be32at req.payload 8) now rand).2.2
        rcases hdp : doPortMap nat st req.src.addr (be16at req.payload 4)
            (be16at req.payload 6) (be32at req.payload 8) now rand
          with ⟨r1, st'⟩
        rw [hdp] at hflow
        dsimp only
        rw [hdp]
        cases r1 <;> exact hflow
      · rw [if_neg h3]

/-- `doNATIn` never removes a hairpin-flow key: any key present before
the call is still present (with some value) afterwards. -/
theorem doNATIn_flow_isSome (nat : NATTable) (st : NatState)
    (src dst : AddrPort) (now : Nat) (k : PortmapFlowKey)
    (h : (alookup st.portMapFlow k).isSome = true) :
    (alookup (doNATIn nat st src dst now).2.portMapFlow k).isSome = true := by
  by_cases h6 : dst.addr.isV6
  · simp [doNATIn, h6, h]
  · rcases hl : alookup st.portMap dst with _ | pm
    · simp [doNATIn, h6, hl, h]
    · by_cases hexp : now < pm.expiry
      · have hstep : (doNATIn nat st src dst now).2.portMapFlow =
            ainsert st.portMapFlow ⟨src, pm.dst⟩ dst := by
          simp [doNATIn, h6, hl, hexp]
        rw [hstep]
        by_cases hk : k = ⟨src, pm.dst⟩
        · rw [hk, alookup_ainsert_self]
          rfl
        · rw [alookup_ainsert_ne _ _ _ _ hk]
          exact h
      · simp [doNATIn, h6, hl, hexp, h]

/-- C9. Hairpin-cache monotonicity: `doNATIn` only ever adds to the
hairpin-flow cache (no key is removed), `doPortMap` and
`handleNATPMPRequest` leave the cache untouched — in particular the
expired-entry deletion and the lifetime-0 delete only shrink the port
-mapping table — and `doNATOut` answers from the cache alone, so a
cached (peer, LAN source) pair keeps resolving to its WAN address no
matter what the port-mapping table now contains. -/
theorem c9_hairpin_cache_monotonic (nat : NATTable) (st : NatState)
    (src dst L P D : AddrPort) (a : Addr) (p e sec now : Nat)
    (rand : Nat → Nat) (req : UDPPacket) (k : PortmapFlowKey) :
    ((alookup st.portMapFlow k).isSome = true →
      (alookup (doNATIn nat st src dst now).2.portMapFlow k).isSome =
        true) ∧
    (doPortMap nat st a p e sec now rand).2.portMapFlow = st.portMapFlow ∧
    (handleNATPMPRequest nat st req now rand).2.portMapFlow =
      st.portMapFlow ∧
    (L.addr.isV6 = false → alookup st.portMapFlow ⟨P, L⟩ = some D →
      doNATOut nat st L P now = some D) := by
  refine ⟨doNATIn_flow_isSome nat st src dst now k,
    (doPortMap_portmap_eq nat st a p e sec now rand).2.2,
    handleNATPMP_flow_eq nat st req now rand, ?_⟩
  intro hL6 hflow
  simp [doNATOut, hL6, hflow]

/-- Witness for C9 at a concrete state whose port-mapping table is
already empty (the mapping that created the cached flow is gone) while
the hairpin-flow entry still answers. -/
theorem c9_hairpin_cache_monotonic_witness :
    ((alookup
        ([(⟨⟨⟨false, 9⟩, 777⟩, ⟨⟨false, 2⟩, 60736⟩⟩, ⟨⟨false, 1⟩, 5000⟩)] :
          List (PortmapFlowKey × AddrPort))
        ⟨⟨⟨false, 9⟩, 777⟩, ⟨⟨false, 2⟩, 60736⟩⟩).isSome = true →
      (alookup (doNATIn natNone
        ⟨[], [(⟨⟨⟨false, 9⟩, 777⟩, ⟨⟨false, 2⟩, 60736⟩⟩,
          ⟨⟨false, 1⟩, 5000⟩)], true, ⟨false, 1⟩⟩
        ⟨⟨false, 9⟩, 777⟩ ⟨⟨false, 1⟩, 5000⟩ 200).2.portMapFlow
        ⟨⟨⟨false, 9⟩, 777⟩, ⟨⟨false, 2⟩, 60736⟩⟩).isSome = true) ∧
    (doPortMap natNone
      ⟨[], [(⟨⟨⟨false, 9⟩, 777⟩, ⟨⟨false, 2⟩, 60736⟩⟩,
        ⟨⟨false, 1⟩, 5000⟩)], true, ⟨false, 1⟩⟩
      ⟨false, 2⟩ 60736 0 7200 200 (fun _ => 0)).2.portMapFlow =
      [(⟨⟨⟨false, 9⟩, 777⟩, ⟨⟨false, 2⟩, 60736⟩⟩, ⟨⟨false, 1⟩, 5000⟩)] ∧
    (handleNATPMPRequest natNone
      ⟨[], [(⟨⟨⟨false, 9⟩, 777⟩, ⟨⟨false, 2⟩, 60736⟩⟩,
        ⟨⟨false, 1⟩, 5000⟩)], true, ⟨false, 1⟩⟩
      ⟨⟨⟨false, 2⟩, 5351⟩, ⟨⟨false, 1⟩, 5351⟩, [0, 0]⟩ 200
      (fun _ => 0)).2.portMapFlow =
      [(⟨⟨⟨false, 9⟩, 777⟩, ⟨⟨false, 2⟩, 60736⟩⟩, ⟨⟨false, 1⟩, 5000⟩)] ∧
    ((⟨⟨false, 2⟩, 60736⟩ : AddrPort).addr.isV6 = false →
      alookup
        ([(⟨⟨⟨false, 9⟩, 777⟩, ⟨⟨false, 2⟩, 60736⟩⟩, ⟨⟨false, 1⟩, 5000⟩)] :
          List (PortmapFlowKey × AddrPort))
        ⟨⟨⟨false, 9⟩, 777⟩, ⟨⟨false, 2⟩, 60736⟩⟩ =
        some ⟨⟨false, 1⟩, 5000⟩ →
      doNATOut natNone
        ⟨[], [(⟨⟨⟨false, 9⟩, 777⟩, ⟨⟨false, 2⟩, 60736⟩⟩,
          ⟨⟨false, 1⟩, 5000⟩)], true, ⟨false, 1⟩⟩
        ⟨⟨false, 2⟩, 60736⟩ ⟨⟨false, 9⟩, 777⟩ 200 =
        some ⟨⟨false, 1⟩, 5000⟩) :=
  c9_hairpin_cache_monotonic natNone
    ⟨[], [(⟨⟨⟨false, 9⟩, 777⟩, ⟨⟨false, 2⟩, 60736⟩⟩, ⟨⟨false, 1⟩, 5000⟩)],
      true, ⟨false, 1⟩⟩
    ⟨⟨false, 9⟩, 777⟩ ⟨⟨false, 1⟩, 5000⟩ ⟨⟨false, 2⟩, 60736⟩
    ⟨⟨false, 9⟩, 777⟩ ⟨⟨false, 1⟩, 5000⟩ ⟨false, 2⟩ 60736 0 7200 200
    (fun _ => 0) ⟨⟨⟨false, 2⟩, 5351⟩, ⟨⟨false, 1⟩, 5351⟩, [0, 0]⟩
    ⟨⟨⟨false, 9⟩, 777⟩, ⟨⟨false, 2⟩, 60736⟩⟩

/-- Witness for C8: a disabled network ignores a well-formed NAT-PMP map
request and a direct `doPortMap` call. -/
theorem c8_portmap_feature_gate_witness :
    doPortMap natNone ⟨[], [], false, ⟨false, 1⟩⟩ ⟨false, 2⟩ 60736 0 7200 10
      (fun _ => 0) = (none, ⟨[], [], false, ⟨false, 1⟩⟩) ∧
    handleNATPMPRequest natNone ⟨[], [], false, ⟨false, 1⟩⟩
      ⟨⟨⟨false, 2⟩, 5351⟩, ⟨⟨false, 1⟩, 5351⟩,
        [0, 1, 0, 0, 237, 64, 0, 0, 0, 0, 28, 32]⟩ 10 (fun _ => 0) =
      ([], ⟨[], [], false, ⟨false, 1⟩⟩) :=
  c8_portmap_feature_gate natNone ⟨[], [], false, ⟨false, 1⟩⟩ (by decide)
    ⟨false, 2⟩ 60736 0 7200 10 (fun _ => 0)
    ⟨⟨⟨false, 2⟩, 5351⟩, ⟨⟨false, 1⟩, 5351⟩,
      [0, 1, 0, 0, 237, 64, 0, 0, 0, 0, 28, 32]⟩

end VNet

namespace Gro

/-- C10. Checksum-offload rejection: for IPv4 input, `RXChecksumOffload`
rejects (returns `none`) exactly when the buffer is shorter than the
20-byte minimum header, the header-length field is below 20 or above 60
bytes or exceeds the buffer, the IPv4 header checksum fails, or the
packet is TCP/UDP and the transport checksum over the pseudo-header
fails; a direct IPv6 TCP/UDP packet with a failing transport checksum is
also rejected; every accepted packet is returned marked
`RXChecksumValidated` carrying the unchanged input bytes (so all header
slices taken were within the input buffer). -/
theorem c10_rx_checksum_offload (parse6 : List Nat → Nat × Nat)
    (p : ParsedPacket) :
    (p.ipVersion = 4 →
      RXChecksumOffload parse6 p =
        (if p.buf.length < 20 ∨
            (p.buf.getD 0 0 % 16 * 4 < 20 ∨ 60 < p.buf.getD 0 0 % 16 * 4 ∨
              p.buf.length < p.buf.getD 0 0 % 16 * 4) ∨
            checksum (p.buf.take (p.buf.getD 0 0 % 16 * 4)) 0 ≠ 65535 ∨
            ((p.ipProto = protoTCP ∨ p.ipProto = protoUDP) ∧
              checksum (p.buf.drop (p.buf.getD 0 0 % 16 * 4))
                (pseudoHeaderChecksum p.ipProto p.srcAddrBytes
                  p.dstAddrBytes
                  (p.buf.length - p.buf.getD 0 0 % 16 * 4)) ≠ 65535)
          then none else some ⟨p.buf, 4, true⟩)) ∧
    (∀ pb, RXChecksumOffload parse6 p = some pb →
      pb.rxChecksumValidated = true ∧ pb.data = p.buf) ∧
    (p.ipVersion = 6 → (p.ipProto = protoTCP ∨ p.ipProto = protoUDP) →
      checksum (p.buf.drop 40)
        (pseudoHeaderChecksum p.ipProto p.srcAddrBytes p.dstAddrBytes
          (p.buf.length - 40)) ≠ 65535 →
      RXChecksumOffload parse6 p = none) := by
  refine ⟨?_, ?_, ?_⟩
  · intro h4
    simp only [List.getD_eq_getElem?_getD]
    by_cases hA : p.buf.length < 20
    · simp [RXChecksumOffload, h4, hA]
    · by_cases hB : (p.buf[0]?).getD 0 % 16 * 4 < 20 ∨
          60 < (p.buf[0]?).getD 0 % 16 * 4 ∨
          p.buf.length < (p.buf[0]?).getD 0 % 16 * 4
      · simp [RXChecksumOffload, h4, hA, hB]
      · by_cases hC : checksum (p.buf.take ((p.buf[0]?).getD 0 % 16 * 4)) 0
            = 65535
        · by_cases hD : p.ipProto = protoTCP ∨ p.ipProto = protoUDP
          · by_cases hE : checksum
                (p.buf.drop ((p.buf[0]?).getD 0 % 16 * 4))
                (pseudoHeaderChecksum p.ipProto p.srcAddrBytes
                  p.dstAddrBytes
                  (p.buf.length - (p.buf[0]?).getD 0 % 16 * 4)) = 65535
            · simp [RXChecksumOffload, h4, hA, hB, hC, hD, hE]
            · simp [RXChecksumOffload, h4, hA, hB, hC, hD, hE]
          · simp [RXChecksumOffload, h4, hA, hB, hC, hD]
        · simp [RXChecksumOffload, h4, hA, hB, hC]
  · intro pb h
    rw [RXChecksumOffload] at h
    dsimp only at h
    repeat' split at h
    all_goals first
      | (obtain rfl := Option.some.inj h; exact ⟨rfl, rfl⟩)
      | (exact absurd h (by simp))
  · intro h6 hproto hbad
    by_cases hlen : p.buf.length < 40
    · simp [RXChecksumOffload, h6, hlen]
    · rcases hproto with h | h <;> rw [h] at hbad <;>
        simp [RXChecksumOffload, h6, hlen, h, hbad]

/-- Witness for C10: a concrete 20-byte IPv4 header with a valid
checksum is accepted and marked validated. -/
theorem c10_rx_checksum_offload_witness :
    RXChecksumOffload (fun _ => (0, 0))
      ⟨4, 0, [], [],
        [69, 0, 0, 0, 0, 0, 0, 0, 0, 0, 186, 255, 0, 0, 0, 0, 0, 0, 0, 0]⟩ =
      some ⟨[69, 0, 0, 0, 0, 0, 0, 0, 0, 0, 186, 255, 0, 0, 0, 0, 0, 0, 0, 0],
        4, true⟩ :=
  ((c10_rx_checksum_offload (fun _ => (0, 0))
      ⟨4, 0, [], [],
        [69, 0, 0, 0, 0, 0, 0, 0, 0, 0, 186, 255, 0, 0, 0, 0, 0, 0, 0,
          0]⟩).1 rfl).trans (by decide)

end Gro
